import Mathlib

/-!
# GitHub Explorer — search-and-selection controller, shallow embedding

Shallow embedding of the state logic of the `Welcome` React component
(`src/unnamed/part_000`, a GitHub user-search UI).  The component's
`useState` slots become the fields of `AppState`; each async handler
(`searchUsers`, `fetchUserRepositories`, `handleUserSelect`, …) becomes a
pure function from the pre-state and the network response to the
post-state.  JavaScript quirks that matter are modelled explicitly:

* `data.items || []` and `data.total_count || 0` — absent JSON fields are
  `Option` and default via `Option.getD`;
* `Math.ceil(data.total_count / 5)` when `total_count` is absent yields
  `NaN`, and `page < NaN` is `false`, so the `&&` short-circuits without
  reading `data.items.length`; when `total_count` is a number `tc` the
  ceiling is the natural-division expression `(tc + 4) / 5`;
* reading `.length` of an absent `items` throws a `TypeError` inside the
  `try`, landing in the `catch` branch;
* the handlers that run code after an `await` are split at the suspension
  point (`selectStart` = everything `handleUserSelect` runs before the
  fetch resolves, `repoFetchComplete` = the completion handler), so
  interleavings of overlapping fetches can be expressed as sequences of
  these functions.
-/

namespace GithubExplorer

/-- `GitHubUser` record, from the `GitHubUser` interface in the source.
`score` is an opaque relevance value the controller never computes with. -/
structure GitHubUser where
  id : Nat
  login : String
  avatar_url : String
  html_url : String
  public_repos : Nat
  score : Nat
deriving Repr, DecidableEq

/-- `GitHubRepo` record, from the `GitHubRepo` interface in the source. -/
structure GitHubRepo where
  id : Nat
  name : String
  full_name : String
  description : Option String
  html_url : String
  stargazers_count : Nat
  language : Option String
  updated_at : String
deriving Repr, DecidableEq

/-- The component state: one field per `useState` slot of `Welcome`. -/
structure AppState where
  searchTerm : String
  users : List GitHubUser
  selectedUser : Option GitHubUser
  repositories : List GitHubRepo
  searchLoading : Bool
  reposLoading : Bool
  hasSearched : Bool
  error : Option String
  currentPage : Nat
  totalUsers : Nat
  hasNextPage : Bool
  isDarkMode : Bool
deriving Repr, DecidableEq

/-- The initial state: the `useState` defaults of `Welcome`. -/
def initialState : AppState :=
  { searchTerm := ""
    users := []
    selectedUser := none
    repositories := []
    searchLoading := false
    reposLoading := false
    hasSearched := false
    error := none
    currentPage := 1
    totalUsers := 0
    hasNextPage := false
    isDarkMode := false }

/-- `const usersPerPage = 5`. -/
def usersPerPage : Nat := 5

/-- Outcome of the search endpoint call as observed by `searchUsers`:
the fetch promise rejects with an `Error` carrying `msg` (`netErr`),
the HTTP status is non-success so `response.ok` is false (`notOk`), or a
JSON body is parsed, whose `items` and `total_count` fields may each be
absent (`ok`). -/
inductive SearchResponse where
  | netErr (msg : String)
  | notOk
  | ok (items : Option (List GitHubUser)) (total_count : Option Nat)
deriving Repr, DecidableEq

/-- Outcome of the repositories endpoint call as observed by
`fetchUserRepositories`: thrown/rejected with message `msg`, or a parsed
array of repositories.  (`response.ok` false throws
`Error('Failed to fetch repositories')`, which is the `err` case with
that message.) -/
inductive RepoResponse where
  | err (msg : String)
  | ok (repos : List GitHubRepo)
deriving Repr, DecidableEq

/-- The message of the `TypeError` raised by `data.items.length` when
`items` is absent from the response body. -/
def typeErrorMessage : String :=
  "Cannot read properties of undefined (reading 'length')"

/-- JavaScript `String.prototype.trim()`: drop whitespace from both ends.
Written by structural recursion over the character list so that it
evaluates on concrete strings. -/
def jsTrim (s : String) : String :=
  String.mk
    (((s.data.dropWhile Char.isWhitespace).reverse.dropWhile
        Char.isWhitespace).reverse)

/-- Result of running `searchUsers` to completion: the final component
state plus how many gateway (fetch) invocations were made. -/
structure SearchOutcome where
  state : AppState
  gatewayCalls : Nat
deriving Repr, DecidableEq

/-- `searchUsers(query, page)` run to completion against response `resp`,
lines 78–117 of the source.  The empty-trim branch resets and returns
before any fetch; otherwise loading/hasSearched/error are set, and the
response is processed inside try/catch/finally exactly as in the source
(including the `TypeError` thrown by `data.items.length` when `items` is
absent but only when `page < totalPages` does not short-circuit the
`&&`). -/
def searchUsers (s : AppState) (query : String) (page : Nat)
    (resp : SearchResponse) : SearchOutcome :=
  if jsTrim query = "" then
    { state := { s with users := [], totalUsers := 0, hasNextPage := false,
                        currentPage := 1, hasSearched := false }
      gatewayCalls := 0 }
  else
    let s1 : AppState :=
      { s with searchLoading := true, hasSearched := true, error := none }
    match resp with
    | .netErr msg =>
        { state := { s1 with error := some msg, users := [], totalUsers := 0,
                             hasNextPage := false, searchLoading := false }
          gatewayCalls := 1 }
    | .notOk =>
        { state := { s1 with error := some "Failed to search users",
                             users := [], totalUsers := 0,
                             hasNextPage := false, searchLoading := false }
          gatewayCalls := 1 }
    | .ok items total_count =>
        let s2 : AppState :=
          { s1 with users := items.getD [], totalUsers := total_count.getD 0,
                    currentPage := page }
        match total_count with
        | none =>
            -- totalPages is NaN; `page < NaN` is false and `&&` short-circuits
            { state := { s2 with hasNextPage := false, searchLoading := false }
              gatewayCalls := 1 }
        | some tc =>
            let totalPages : Nat := min ((tc + usersPerPage - 1) / usersPerPage) 200
            if page < totalPages then
              match items with
              | none =>
                  -- `data.items.length` throws; catch block runs
                  { state := { s2 with error := some typeErrorMessage,
                                       users := [], totalUsers := 0,
                                       hasNextPage := false,
                                       searchLoading := false }
                    gatewayCalls := 1 }
              | some l =>
                  { state := { s2 with
                                 hasNextPage := decide (l.length = usersPerPage),
                                 searchLoading := false }
                    gatewayCalls := 1 }
            else
              { state := { s2 with hasNextPage := false, searchLoading := false }
                gatewayCalls := 1 }

/-- The synchronous prefix of `fetchUserRepositories` (lines 120–121),
run before the fetch suspends. -/
def startRepoFetch (s : AppState) : AppState :=
  { s with reposLoading := true, error := none }

/-- The completion handler of `fetchUserRepositories` (lines 123–135):
applied to whatever the component state is when the response arrives.
Note there is no check that the response still corresponds to the
currently selected user. -/
def repoFetchComplete (s : AppState) (resp : RepoResponse) : AppState :=
  match resp with
  | .ok repos => { s with repositories := repos, reposLoading := false }
  | .err msg => { s with error := some msg, repositories := [],
                         reposLoading := false }

/-- `fetchUserRepositories` run to completion with no interleaving. -/
def fetchUserRepositories (s : AppState) (resp : RepoResponse) : AppState :=
  repoFetchComplete (startRepoFetch s) resp

/-- Everything `handleUserSelect` (lines 138–141) runs before the
repositories fetch resolves: set the selected user, then the synchronous
prefix of `fetchUserRepositories`. -/
def selectStart (s : AppState) (u : GitHubUser) : AppState :=
  startRepoFetch { s with selectedUser := some u }

/-- `handleUserSelect` run to completion with no interleaving. -/
def handleUserSelect (s : AppState) (u : GitHubUser) (resp : RepoResponse) :
    AppState :=
  fetchUserRepositories { s with selectedUser := some u } resp

/-- The user-facing operations the component exposes, each run to
completion (network responses supplied as parameters). -/
inductive Op where
  | setQuery (text : String)
  | triggerSearch (resp : SearchResponse)
  | nextPage (resp : SearchResponse)
  | prevPage (resp : SearchResponse)
  | select (user : GitHubUser) (resp : RepoResponse)
  | toggleTheme
deriving Repr, DecidableEq

/-- One operation applied to the state: `handleSearchChange`,
Enter/search button (`searchUsers(searchTerm)` at page 1),
`handleNextPage`, `handlePrevPage`, `handleUserSelect`, `toggleTheme`. -/
def applyOp (s : AppState) : Op → AppState
  | .setQuery t => { s with searchTerm := t }
  | .triggerSearch r => (searchUsers s s.searchTerm 1 r).state
  | .nextPage r =>
      if s.hasNextPage then
        (searchUsers s s.searchTerm (s.currentPage + 1) r).state
      else s
  | .prevPage r =>
      if s.currentPage > 1 then
        (searchUsers s s.searchTerm (s.currentPage - 1) r).state
      else s
  | .select u r => handleUserSelect s u r
  | .toggleTheme => { s with isDarkMode := !s.isDarkMode }

/-- The pagination rule as the spec words it (section 4.2): next page is
available iff a full page was returned and the requested page is below
`ceil(min(totalCount, HARD_CAP) / pageSize)`, with `pageSize = 5` and
`HARD_CAP = 1000`; the ceiling of `n / 5` on naturals is `(n + 4) / 5`. -/
def specHasNextPage (itemsReturned totalCount page : Nat) : Bool :=
  decide (itemsReturned = 5) && decide (page < (min totalCount 1000 + 4) / 5)

/-- Sample primary entity used in concrete scenarios. -/
def userA : GitHubUser :=
  { id := 1, login := "alice", avatar_url := "a.png", html_url := "u/alice",
    public_repos := 2, score := 1 }

/-- Second sample primary entity. -/
def userB : GitHubUser :=
  { id := 2, login := "bob", avatar_url := "b.png", html_url := "u/bob",
    public_repos := 3, score := 1 }

/-- Sample repository belonging to `userA`. -/
def repoA1 : GitHubRepo :=
  { id := 11, name := "arepo", full_name := "alice/arepo",
    description := none, html_url := "r/arepo", stargazers_count := 4,
    language := some "TypeScript", updated_at := "2024-01-01" }

/-- Sample repository belonging to `userB`. -/
def repoB1 : GitHubRepo :=
  { id := 21, name := "brepo", full_name := "bob/brepo",
    description := some "b", html_url := "r/brepo", stargazers_count := 7,
    language := none, updated_at := "2024-02-02" }

/-- Helper: `searchUsers` never touches the fields owned by the other
lifecycle (search term, selection, repositories, repo-loading flag,
theme). -/
theorem searchUsers_frame (s : AppState) (q : String) (p : Nat)
    (r : SearchResponse) :
    (searchUsers s q p r).state.searchTerm = s.searchTerm ∧
    (searchUsers s q p r).state.selectedUser = s.selectedUser ∧
    (searchUsers s q p r).state.repositories = s.repositories ∧
    (searchUsers s q p r).state.reposLoading = s.reposLoading ∧
    (searchUsers s q p r).state.isDarkMode = s.isDarkMode := by
  unfold searchUsers
  dsimp only
  repeat' split
  all_goals exact ⟨rfl, rfl, rfl, rfl, rfl⟩

/-- Claim C2 counterexample: after `userB` has been selected and loaded,
selecting `userA` (the synchronous part of `handleUserSelect`, before
the fetch resolves) leaves the prior repositories collection in place —
the state is not cleared while the new fetch is in flight, contrary to
the claim. -/
theorem select_does_not_clear_prior_repositories :
    (selectStart (handleUserSelect initialState userB
        (RepoResponse.ok [repoB1])) userA).repositories = [repoB1] ∧
      ([repoB1] : List GitHubRepo) ≠ [] := by
  exact ⟨rfl, by decide⟩

/-- Claim C2 (amended): `select` immediately sets the selected user,
sets dependent-loading, and clears the error, but it leaves the prior
repositories collection unchanged until the fetch completes. -/
theorem select_immediate_effects (s : AppState) (u : GitHubUser) :
    (selectStart s u).selectedUser = some u ∧
    (selectStart s u).reposLoading = true ∧
    (selectStart s u).error = none ∧
    (selectStart s u).repositories = s.repositories :=
  ⟨rfl, rfl, rfl, rfl⟩

/-- Claim C3 counterexample: starting from a state holding an error (a
failed search), triggering a search with an empty query leaves the error
in place — the empty-query reset does not clear `ErrorState`, contrary
to the claim. -/
theorem empty_query_reset_keeps_error :
    (searchUsers (searchUsers initialState "a" 1 SearchResponse.notOk).state
        "" 1 (SearchResponse.ok none none)).state.error
      = some "Failed to search users" := by
  rfl

/-- Claim C3 (amended): triggering a search whose trimmed query is empty
makes no gateway call and resets to the no-active-search state — entity
collection empty, count 0, page 1, `hasSearched` and `hasNextPage`
false — while `ErrorState` (and the selection state) is left
unchanged. -/
theorem empty_query_reset (s : AppState) (q : String) (p : Nat)
    (r : SearchResponse) (h : jsTrim q = "") :
    (searchUsers s q p r).gatewayCalls = 0 ∧
    (searchUsers s q p r).state.users = [] ∧
    (searchUsers s q p r).state.totalUsers = 0 ∧
    (searchUsers s q p r).state.currentPage = 1 ∧
    (searchUsers s q p r).state.hasSearched = false ∧
    (searchUsers s q p r).state.hasNextPage = false ∧
    (searchUsers s q p r).state.error = s.error ∧
    (searchUsers s q p r).state.selectedUser = s.selectedUser ∧
    (searchUsers s q p r).state.repositories = s.repositories := by
  unfold searchUsers
  rw [if_pos h]
  exact ⟨rfl, rfl, rfl, rfl, rfl, rfl, rfl, rfl, rfl⟩

/-- Witness for `empty_query_reset` at the concrete empty query. -/
theorem empty_query_reset_witness :
    jsTrim "" = "" ∧
    ((searchUsers initialState "" 1 (SearchResponse.ok none none)).gatewayCalls = 0 ∧
     (searchUsers initialState "" 1 (SearchResponse.ok none none)).state.users = [] ∧
     (searchUsers initialState "" 1 (SearchResponse.ok none none)).state.totalUsers = 0 ∧
     (searchUsers initialState "" 1 (SearchResponse.ok none none)).state.currentPage = 1 ∧
     (searchUsers initialState "" 1 (SearchResponse.ok none none)).state.hasSearched = false ∧
     (searchUsers initialState "" 1 (SearchResponse.ok none none)).state.hasNextPage = false ∧
     (searchUsers initialState "" 1 (SearchResponse.ok none none)).state.error = initialState.error ∧
     (searchUsers initialState "" 1 (SearchResponse.ok none none)).state.selectedUser = initialState.selectedUser ∧
     (searchUsers initialState "" 1 (SearchResponse.ok none none)).state.repositories = initialState.repositories) :=
  ⟨by decide, empty_query_reset initialState "" 1 (SearchResponse.ok none none) (by decide)⟩

/-- Claim C7: a failed dependent (repositories) fetch changes only the
dependent lifecycle — it sets the error, empties the repositories, and
clears the repo-loading flag — while the selection and all search-owned
state (users, count, page, next-page flag, query, search flags) are
unchanged. -/
theorem repo_failure_frame (s : AppState) (m : String) :
    (fetchUserRepositories s (RepoResponse.err m)).error = some m ∧
    (fetchUserRepositories s (RepoResponse.err m)).repositories = [] ∧
    (fetchUserRepositories s (RepoResponse.err m)).reposLoading = false ∧
    (fetchUserRepositories s (RepoResponse.err m)).selectedUser = s.selectedUser ∧
    (fetchUserRepositories s (RepoResponse.err m)).users = s.users ∧
    (fetchUserRepositories s (RepoResponse.err m)).totalUsers = s.totalUsers ∧
    (fetchUserRepositories s (RepoResponse.err m)).currentPage = s.currentPage ∧
    (fetchUserRepositories s (RepoResponse.err m)).hasNextPage = s.hasNextPage ∧
    (fetchUserRepositories s (RepoResponse.err m)).searchTerm = s.searchTerm ∧
    (fetchUserRepositories s (RepoResponse.err m)).searchLoading = s.searchLoading ∧
    (fetchUserRepositories s (RepoResponse.err m)).hasSearched = s.hasSearched :=
  ⟨rfl, rfl, rfl, rfl, rfl, rfl, rfl, rfl, rfl, rfl, rfl⟩

/-- Claim C1 (code-bug demonstration): select `userA`, then select
`userB` while A's dependent fetch is in flight; B's fetch completes
(repositories = `[repoB1]`), then A's late response arrives.  The
completion handler has no fencing, so A's stale result is applied: the
final state shows `userB` selected with `userA`'s repositories,
violating the fencing guarantee the claim states. -/
theorem stale_repo_fetch_overwrites_newer_selection :
    (repoFetchComplete
        (repoFetchComplete
          (selectStart (selectStart initialState userA) userB)
          (RepoResponse.ok [repoB1]))
        (RepoResponse.ok [repoA1])).selectedUser = some userB ∧
    (repoFetchComplete
        (repoFetchComplete
          (selectStart (selectStart initialState userA) userB)
          (RepoResponse.ok [repoB1]))
        (RepoResponse.ok [repoA1])).repositories = [repoA1] ∧
    repoA1 ≠ repoB1 :=
  ⟨rfl, rfl, by decide⟩

/-- Claim C4: after a successful search response carrying both fields,
the stored `hasNextPage` equals the spec's pagination formula, and the
code's page bound `min(ceil(totalCount / 5), 200)` coincides with the
spec's `ceil(min(totalCount, 1000) / 5)` for every natural count. -/
theorem hasNextPage_matches_spec (s : AppState) (q : String) (p : Nat)
    (l : List GitHubUser) (tc : Nat) (h : jsTrim q ≠ "") :
    (searchUsers s q p
        (SearchResponse.ok (some l) (some tc))).state.hasNextPage
      = specHasNextPage l.length tc p ∧
    ∀ n : Nat,
      min ((n + usersPerPage - 1) / usersPerPage) 200
        = (min n 1000 + 4) / 5 := by
  constructor
  · unfold searchUsers
    rw [if_neg h]
    dsimp only
    have hiff : p < min ((tc + usersPerPage - 1) / usersPerPage) 200 ↔
        p < (min tc 1000 + 4) / 5 := by
      unfold usersPerPage
      omega
    by_cases hp : p < min ((tc + usersPerPage - 1) / usersPerPage) 200
    · rw [if_pos hp]
      have h5 : p < (min tc 1000 + 4) / 5 := hiff.mp hp
      unfold specHasNextPage usersPerPage
      simp [h5]
    · rw [if_neg hp]
      have h5 : ¬ p < (min tc 1000 + 4) / 5 := fun hh => hp (hiff.mpr hh)
      unfold specHasNextPage
      simp [h5]
  · intro n
    unfold usersPerPage
    omega

/-- Witness for `hasNextPage_matches_spec`: the spec's scenario — query
"a", page 3, a full page of 5 items out of 1000. -/
theorem hasNextPage_matches_spec_witness :
    jsTrim "a" ≠ "" ∧
    ((searchUsers initialState "a" 3
        (SearchResponse.ok (some (List.replicate 5 userA))
          (some 1000))).state.hasNextPage
      = specHasNextPage (List.replicate 5 userA).length 1000 3 ∧
     ∀ n : Nat,
       min ((n + usersPerPage - 1) / usersPerPage) 200
         = (min n 1000 + 4) / 5) :=
  ⟨by decide,
   hasNextPage_matches_spec initialState "a" 3 (List.replicate 5 userA)
     1000 (by decide)⟩

/-- Claim C5: a successful response returning fewer items than the page
size always yields `hasNextPage = false`, whatever `total_count` the
server reported (even when it is absent). -/
theorem short_page_no_next_page (s : AppState) (q : String) (p : Nat)
    (l : List GitHubUser) (oc : Option Nat) (hq : jsTrim q ≠ "")
    (hl : l.length < usersPerPage) :
    (searchUsers s q p
        (SearchResponse.ok (some l) oc)).state.hasNextPage = false := by
  unfold searchUsers
  rw [if_neg hq]
  cases oc with
  | none => rfl
  | some tc =>
    dsimp only
    by_cases hp : p < min ((tc + usersPerPage - 1) / usersPerPage) 200
    · rw [if_pos hp]
      dsimp only
      simp only [decide_eq_false_iff_not]
      exact Nat.ne_of_lt hl
    · rw [if_neg hp]

/-- Witness for `short_page_no_next_page`: one item on a page of five,
with a reported count of 1000. -/
theorem short_page_no_next_page_witness :
    jsTrim "a" ≠ "" ∧ ([userA] : List GitHubUser).length < usersPerPage ∧
    (searchUsers initialState "a" 1
        (SearchResponse.ok (some [userA]) (some 1000))).state.hasNextPage
      = false :=
  ⟨by decide, by decide,
   short_page_no_next_page initialState "a" 1 [userA] (some 1000)
     (by decide) (by decide)⟩

/-- Claim C6: for a non-empty query, both failure modes of the search
call — a rejected fetch carrying message `m`, and a non-success HTTP
status (which throws 'Failed to search users') — set the error message,
clear the user collection and the total count, and end with
search-loading false. -/
theorem search_failure_sets_error_clears_results (s : AppState)
    (q : String) (p : Nat) (m : String) (hq : jsTrim q ≠ "") :
    ((searchUsers s q p (SearchResponse.netErr m)).state.error = some m ∧
     (searchUsers s q p (SearchResponse.netErr m)).state.users = [] ∧
     (searchUsers s q p (SearchResponse.netErr m)).state.totalUsers = 0 ∧
     (searchUsers s q p (SearchResponse.netErr m)).state.searchLoading
       = false) ∧
    ((searchUsers s q p SearchResponse.notOk).state.error
       = some "Failed to search users" ∧
     (searchUsers s q p SearchResponse.notOk).state.users = [] ∧
     (searchUsers s q p SearchResponse.notOk).state.totalUsers = 0 ∧
     (searchUsers s q p SearchResponse.notOk).state.searchLoading
       = false) := by
  unfold searchUsers
  simp [if_neg hq]

/-- Witness for `search_failure_sets_error_clears_results` at query "a"
and the browser's fetch-rejection message. -/
theorem search_failure_sets_error_clears_results_witness :
    jsTrim "a" ≠ "" ∧
    (((searchUsers initialState "a" 1
         (SearchResponse.netErr "Failed to fetch")).state.error
        = some "Failed to fetch" ∧
      (searchUsers initialState "a" 1
         (SearchResponse.netErr "Failed to fetch")).state.users = [] ∧
      (searchUsers initialState "a" 1
         (SearchResponse.netErr "Failed to fetch")).state.totalUsers = 0 ∧
      (searchUsers initialState "a" 1
         (SearchResponse.netErr "Failed to fetch")).state.searchLoading
        = false) ∧
     ((searchUsers initialState "a" 1 SearchResponse.notOk).state.error
        = some "Failed to search users" ∧
      (searchUsers initialState "a" 1 SearchResponse.notOk).state.users
        = [] ∧
      (searchUsers initialState "a" 1
         SearchResponse.notOk).state.totalUsers = 0 ∧
      (searchUsers initialState "a" 1
         SearchResponse.notOk).state.searchLoading = false)) :=
  ⟨by decide,
   search_failure_sets_error_clears_results initialState "a" 1
     "Failed to fetch" (by decide)⟩

/-- Claim C8: running `searchUsers` to completion twice with the same
query, page, and server response reaches the same final state as
running it once. -/
theorem triggerSearch_idempotent (s : AppState) (q : String) (p : Nat)
    (r : SearchResponse) :
    (searchUsers (searchUsers s q p r).state q p r).state
      = (searchUsers s q p r).state := by
  cases s
  by_cases h : jsTrim q = ""
  · simp [searchUsers, h]
  · rcases r with m | _ | ⟨(_ | l), (_ | tc)⟩
    · simp [searchUsers, h]
    · simp [searchUsers, h]
    · simp [searchUsers, h]
    · by_cases hp : p < min ((tc + usersPerPage - 1) / usersPerPage) 200 <;>
        simp [searchUsers, h, hp]
    · simp [searchUsers, h]
    · by_cases hp : p < min ((tc + usersPerPage - 1) / usersPerPage) 200 <;>
        simp [searchUsers, h, hp]

/-- Claim C9: no operation ever resets the selection to `none` — every
operation either leaves `selectedUser` unchanged or (for `select`)
writes `some` user; the search operation in particular leaves both the
selection and the repositories collection untouched, and
`handleUserSelect` always stores the selected user. -/
theorem selectedUser_never_cleared (s : AppState) (op : Op) (q : String)
    (p : Nat) (r : SearchResponse) (u : GitHubUser) (rr : RepoResponse) :
    ((applyOp s op).selectedUser = s.selectedUser ∨
      ∃ v, (applyOp s op).selectedUser = some v) ∧
    (searchUsers s q p r).state.selectedUser = s.selectedUser ∧
    (searchUsers s q p r).state.repositories = s.repositories ∧
    (handleUserSelect s u rr).selectedUser = some u := by
  refine ⟨?_, (searchUsers_frame s q p r).2.1,
    (searchUsers_frame s q p r).2.2.1, ?_⟩
  · cases op with
    | setQuery t => exact Or.inl rfl
    | triggerSearch r2 =>
        exact Or.inl (searchUsers_frame s s.searchTerm 1 r2).2.1
    | nextPage r2 =>
        by_cases hn : s.hasNextPage = true
        · refine Or.inl ?_
          simp only [applyOp, hn, if_true]
          exact (searchUsers_frame s s.searchTerm (s.currentPage + 1) r2).2.1
        · refine Or.inl ?_
          simp only [applyOp, hn, if_false]
          simp [hn]
    | prevPage r2 =>
        by_cases hn : s.currentPage > 1
        · refine Or.inl ?_
          simp only [applyOp, if_pos hn]
          exact (searchUsers_frame s s.searchTerm (s.currentPage - 1) r2).2.1
        · refine Or.inl ?_
          simp only [applyOp, if_neg hn]
    | select u2 r2 =>
        exact Or.inr ⟨u2, by cases r2 <;> rfl⟩
    | toggleTheme => exact Or.inl rfl
  · cases rr <;> rfl

/-- Claim C10 counterexample: a success response whose body has
`total_count = 3` but no `items` field, requested at page 1, short-
circuits the `&&` before reading `items.length` and ends in the success
path — the error slot stays `none` (and the count is stored), contrary
to the claim that such a response always ends in the failure state. -/
theorem missing_items_can_end_successfully :
    (searchUsers initialState "a" 1
        (SearchResponse.ok none (some 3))).state.error = none ∧
    (searchUsers initialState "a" 1
        (SearchResponse.ok none (some 3))).state.users = [] ∧
    (searchUsers initialState "a" 1
        (SearchResponse.ok none (some 3))).state.totalUsers = 3 ∧
    (searchUsers initialState "a" 1
        (SearchResponse.ok none (some 3))).state.searchLoading = false :=
  ⟨rfl, rfl, rfl, rfl⟩

/-- Claim C10 (amended): with `items` absent, the operation ends in the
failure state exactly when `page < min(ceil(total_count / 5), 200)` (the
left conjunct forces `items.length` to be read and the `TypeError` is
caught: error set, users and count cleared); otherwise — including when
`total_count` is also absent, making the bound `NaN` — the `&&`
short-circuits and the operation completes successfully with an empty
collection; either way `hasNextPage` is false and loading ends. -/
theorem missing_items_outcome (s : AppState) (q : String) (p : Nat)
    (tc : Nat) (hq : jsTrim q ≠ "") :
    (searchUsers s q p (SearchResponse.ok none (some tc))).state.error
      = (if p < min ((tc + usersPerPage - 1) / usersPerPage) 200
         then some typeErrorMessage else none) ∧
    (searchUsers s q p (SearchResponse.ok none (some tc))).state.users
      = [] ∧
    (searchUsers s q p (SearchResponse.ok none (some tc))).state.totalUsers
      = (if p < min ((tc + usersPerPage - 1) / usersPerPage) 200
         then 0 else tc) ∧
    (searchUsers s q p
        (SearchResponse.ok none (some tc))).state.hasNextPage = false ∧
    (searchUsers s q p
        (SearchResponse.ok none (some tc))).state.searchLoading = false ∧
    (searchUsers s q p (SearchResponse.ok none none)).state.error = none ∧
    (searchUsers s q p
        (SearchResponse.ok none none)).state.searchLoading = false := by
  unfold searchUsers
  simp only [if_neg hq]
  by_cases hp : p < min ((tc + usersPerPage - 1) / usersPerPage) 200 <;>
    simp [hp]

/-- Witness for `missing_items_outcome` at query "a", page 1, reported
count 1000. -/
theorem missing_items_outcome_witness :
    jsTrim "a" ≠ "" ∧
    ((searchUsers initialState "a" 1
        (SearchResponse.ok none (some 1000))).state.error
      = (if 1 < min ((1000 + usersPerPage - 1) / usersPerPage) 200
         then some typeErrorMessage else none) ∧
     (searchUsers initialState "a" 1
        (SearchResponse.ok none (some 1000))).state.users = [] ∧
     (searchUsers initialState "a" 1
        (SearchResponse.ok none (some 1000))).state.totalUsers
      = (if 1 < min ((1000 + usersPerPage - 1) / usersPerPage) 200
         then 0 else 1000) ∧
     (searchUsers initialState "a" 1
        (SearchResponse.ok none (some 1000))).state.hasNextPage = false ∧
     (searchUsers initialState "a" 1
        (SearchResponse.ok none (some 1000))).state.searchLoading = false ∧
     (searchUsers initialState "a" 1
        (SearchResponse.ok none none)).state.error = none ∧
     (searchUsers initialState "a" 1
        (SearchResponse.ok none none)).state.searchLoading = false) :=
  ⟨by decide, missing_items_outcome initialState "a" 1 1000 (by decide)⟩

end GithubExplorer
